import Mathlib

/-!
Verification of the strength-tracker analytics engine.

The definitions below are a shallow embedding of the Python sources
src/ai_prediction.py (class AIPredictor) and src/fatigue_monitor.py
(class FatigueMonitor), together with the slice of the workout tracker
(get_recent_workouts / get_exercise_history / get_user_workouts) that
those two modules consume.  Weights, RPE values and scores are modelled
as rationals; dates are modelled as integer day numbers and the implicit
wall clock (datetime.now()) is an explicit `now` parameter.  Python's
built-in round (round half to even) is modelled by `rhe`.
-/

-- The rational arithmetic of the standard library is marked irreducible,
-- which blocks evaluation of concrete instances by the decide tactic.
-- Restoring default reducibility locally lets witnesses evaluate.
attribute [local semireducible] Rat.add Rat.mul Rat.inv Rat.sub Rat.ofScientific

namespace StrengthTracker

/-- Python's built-in round for a rational: nearest integer, ties to even. -/
def rhe (q : ℚ) : ℤ :=
  if q - ⌊q⌋ < 1/2 then ⌊q⌋
  else if 1/2 < q - ⌊q⌋ then ⌊q⌋ + 1
  else if ⌊q⌋ % 2 = 0 then ⌊q⌋ else ⌊q⌋ + 1

/-- Python round(x, d): round half to even at d decimal places. -/
def roundTo (d : ℕ) (q : ℚ) : ℚ :=
  (rhe (q * 10 ^ d) : ℚ) / 10 ^ d

/-- round(x * 2) / 2, the "round to nearest 0.5 kg" idiom of the source. -/
def roundToHalf (q : ℚ) : ℚ :=
  (rhe (q * 2) : ℚ) / 2

/-- Sum of a list of rationals. -/
def qsum (l : List ℚ) : ℚ := l.foldr (· + ·) 0

/-- Mean of a list of rationals (pandas .mean(); callers guard emptiness). -/
def qmean (l : List ℚ) : ℚ := qsum l / l.length

/-- One row of the workouts dataframe: date (day number), sets, reps,
weight and RPE for a single logged exercise session. -/
structure Entry where
  date : ℤ
  sets : ℚ
  reps : ℚ
  weight : ℚ
  rpe : ℚ
deriving DecidableEq

instance : Inhabited Entry := ⟨⟨0, 0, 0, 0, 0⟩⟩

/-- Ascending-by-date comparison used by sort_values('date'). -/
def dateLe (a b : Entry) : Prop := a.date ≤ b.date

instance : DecidableRel dateLe := fun a b => Int.decLe a.date b.date

/-- Descending-by-date comparison (sort_values('date', ascending=False)). -/
def dateGe (a b : Entry) : Prop := b.date ≤ a.date

instance : DecidableRel dateGe := fun a b => Int.decLe b.date a.date

/-- sort_values('date') — pandas sorts stably; insertion sort is stable. -/
def sortAsc (l : List Entry) : List Entry := l.insertionSort dateLe

/-- sort_values('date', ascending=False). -/
def sortDesc (l : List Entry) : List Entry := l.insertionSort dateGe

/-- WorkoutTracker.get_recent_workouts: rows whose date is at least
now - days, sorted descending by date. -/
def getRecentWorkouts (h : List Entry) (now : ℤ) (days : ℕ) : List Entry :=
  sortDesc (h.filter fun e => now - (days : ℤ) ≤ e.date)

/-- WorkoutTracker.get_user_workouts: the full history sorted ascending. -/
def getUserWorkouts (h : List Entry) : List Entry := sortAsc h

/-- Count of distinct dates (len of pandas .unique() on the date column). -/
def uniqueDates (l : List Entry) : ℕ := ((l.map Entry.date).dedup).length

-- Basic facts about the round-half-to-even primitive.

theorem rhe_floor_le (q : ℚ) : ⌊q⌋ ≤ rhe q := by
  unfold rhe; split_ifs <;> omega

theorem rhe_le_floor_add_one (q : ℚ) : rhe q ≤ ⌊q⌋ + 1 := by
  unfold rhe; split_ifs <;> omega

theorem rhe_ge (q : ℚ) : q - 1/2 ≤ (rhe q : ℚ) := by
  have h1 : (⌊q⌋ : ℚ) ≤ q := Int.floor_le q
  have h2 : q < ⌊q⌋ + 1 := Int.lt_floor_add_one q
  unfold rhe
  split_ifs
  all_goals push_cast
  all_goals linarith

theorem rhe_le (q : ℚ) : (rhe q : ℚ) ≤ q + 1/2 := by
  have h1 : (⌊q⌋ : ℚ) ≤ q := Int.floor_le q
  have h2 : q < ⌊q⌋ + 1 := Int.lt_floor_add_one q
  unfold rhe
  split_ifs
  all_goals push_cast
  all_goals linarith

theorem rhe_mono {q r : ℚ} (h : q ≤ r) : rhe q ≤ rhe r := by
  have hf : ⌊q⌋ ≤ ⌊r⌋ := Int.floor_mono h
  rcases eq_or_lt_of_le hf with heq | hlt
  · unfold rhe
    rw [← heq]
    split_ifs <;> first
      | omega
      | (exfalso; linarith)
  · have h1 := rhe_le_floor_add_one q
    have h2 := rhe_floor_le r
    omega

theorem roundToHalf_mono {q r : ℚ} (h : q ≤ r) : roundToHalf q ≤ roundToHalf r := by
  unfold roundToHalf
  have := rhe_mono (show q * 2 ≤ r * 2 by linarith)
  have hc : ((rhe (q * 2) : ℚ)) ≤ ((rhe (r * 2) : ℚ)) := by exact_mod_cast this
  linarith

/-!
AIPredictor.predict_next_weight and get_model_accuracy
(src/ai_prediction.py lines 49-165).

The only piece abstracted away is sklearn's LinearRegression least-squares
solver, which is third-party library code: it enters as the parameter
`fit`, mapping the feature matrix X and target vector y to a fitted model
(a function from a feature row to a predicted value), or to failure.
Everything downstream of the solver — the early-exit guards, the feature
construction, the R-squared / mean-absolute-error metrics, the model
cache keyed by user_exercise, the 7-day extrapolation and the safety
clamp with 0.5 kg rounding — is embedded concretely.  The try/except
wrapper that converts any internal failure into None is modelled by the
fit parameter returning Option and by totality of the embedding.
-/

/-- A fitted linear model: maps one feature row to a predicted weight. -/
def LinModel : Type := List ℚ → ℚ

/-- Metrics stored per model key: R-squared, mean absolute error and
the number of data points of the fit. -/
structure Metrics where
  r2 : ℚ
  mae : ℚ
  dataPoints : ℕ
deriving DecidableEq

/-- The mutable state of an AIPredictor instance: self.models and
self.model_metrics, both Python dicts keyed by the model-key string.
A dict write is modelled by consing; a dict read by first-match lookup. -/
structure PredictorState where
  models : List (String × LinModel)
  metrics : List (String × Metrics)

/-- The string key f-string user_exercise used for both dicts. -/
def modelKey (user exercise : String) : String :=
  user ++ "_" ++ exercise

/-- sklearn.metrics.r2_score: 1 - ss_res/ss_tot, with the constant-target
degenerate case (ss_tot = 0) mapped to 1 when the fit is exact and 0
otherwise. -/
def r2Score (y yPred : List ℚ) : ℚ :=
  let ybar := qmean y
  let ssRes := qsum ((y.zip yPred).map fun p => (p.1 - p.2) ^ 2)
  let ssTot := qsum (y.map fun v => (v - ybar) ^ 2)
  if ssTot = 0 then (if ssRes = 0 then 1 else 0) else 1 - ssRes / ssTot

/-- sklearn.metrics.mean_absolute_error. -/
def maeScore (y yPred : List ℚ) : ℚ :=
  qsum ((y.zip yPred).map fun p => |p.1 - p.2|) / y.length

/-- Lines 126-138 of src/ai_prediction.py: cap the raw delta at 10 % of
the last weight, then floor it at 0.5 kg (the floor is applied second and
wins when they conflict), and round the result to the nearest 0.5 kg. -/
def applySafetyConstraints (prediction lastWeight : ℚ) : ℚ :=
  let maxIncrease := lastWeight * (1/10)
  let minIncrease : ℚ := 1/2
  let suggested0 := min (prediction - lastWeight) maxIncrease
  let suggested := max suggested0 minIncrease
  let predictedWeight := lastWeight + suggested
  (rhe (predictedWeight * 2) : ℚ) / 2

/-- The feature row of one entry: days_since_start, plus rpe and the
rpe * days interaction term when use_rpe is set (the rpe column is always
present in the data model). -/
def featureRow (useRpe : Bool) (dmin : ℤ) (e : Entry) : List ℚ :=
  let ds : ℚ := ((e.date - dmin : ℤ) : ℚ)
  if useRpe then [ds, e.rpe, e.rpe * ds] else [ds]

/-- date.min() over the sorted exercise data (the reference point of the
days_since_start feature). -/
def dminOf (sorted : List Entry) : ℤ := ((sorted.map Entry.date).min?).getD 0

/-- The feature matrix X built from the sorted exercise data. -/
def featuresX (useRpe : Bool) (sorted : List Entry) : List (List ℚ) :=
  sorted.map (featureRow useRpe (dminOf sorted))

/-- The metrics dict entry stored after a fit: R-squared and mean absolute
error of the in-sample predictions, and the number of data points. -/
def fitMetrics (X : List (List ℚ)) (y : List ℚ) (model : LinModel) : Metrics :=
  ⟨r2Score y (X.map model), maeScore y (X.map model), X.length⟩

/-- days_since_start of the last row plus 7 (next workout assumed one week
out). -/
def nextDaysOf (sorted : List Entry) : ℚ :=
  (((sorted.getLastD default).date - dminOf sorted : ℤ) : ℚ) + 7

/-- Mean RPE of the last 3 sessions (pandas .tail(3).mean()). -/
def recentRpeOf (sorted : List Entry) : ℚ :=
  qmean ((sorted.drop (sorted.length - 3)).map Entry.rpe)

/-- The feature row at which the next weight is predicted. -/
def nextFeaturesOf (useRpe : Bool) (sorted : List Entry) : List ℚ :=
  if useRpe then
    [nextDaysOf sorted, recentRpeOf sorted, recentRpeOf sorted * nextDaysOf sorted]
  else [nextDaysOf sorted]

/-- The stateless core of predict_next_weight: from the exercise history
compute the fitted model, its metrics and the clamped prediction, or fail.
Failure covers both the explicit guards (fewer than 3 rows, twice) and a
degenerate fit (the `fit` parameter returning none, absorbed by the
except-branch of the source into a None result). -/
def predictCore (fit : List (List ℚ) → List ℚ → Option LinModel)
    (history : List Entry) (useRpe : Bool) : Option (Metrics × LinModel × ℚ) :=
  if history.length < 3 then none
  else if (featuresX useRpe (sortAsc history)).length < 3 then none
  else
    match fit (featuresX useRpe (sortAsc history)) ((sortAsc history).map Entry.weight) with
    | none => none
    | some model =>
      some (fitMetrics (featuresX useRpe (sortAsc history))
              ((sortAsc history).map Entry.weight) model,
            model,
            applySafetyConstraints (model (nextFeaturesOf useRpe (sortAsc history)))
              ((sortAsc history).getLastD default).weight)

/-- AIPredictor.predict_next_weight: run the core on the exercise history
and, on success, overwrite the model and metrics stored under the key
user_exercise and return the predicted weight.  On any failure the state
is unchanged and None is returned. -/
def predictNextWeight (fit : List (List ℚ) → List ℚ → Option LinModel)
    (st : PredictorState) (user exercise : String) (history : List Entry)
    (useRpe : Bool) : PredictorState × Option ℚ :=
  match predictCore fit history useRpe with
  | none => (st, none)
  | some (m, model, w) =>
    (⟨(modelKey user exercise, model) :: st.models,
      (modelKey user exercise, m) :: st.metrics⟩, some w)

/-- AIPredictor.get_model_accuracy: the R-squared stored under the key
user_exercise, or None when no fit for that key has happened. -/
def getModelAccuracy (st : PredictorState) (user exercise : String) : Option ℚ :=
  (st.metrics.lookup (modelKey user exercise)).map Metrics.r2

theorem applySafetyConstraints_spec (p lw : ℚ) :
    (∃ k : ℤ, applySafetyConstraints p lw = (k : ℚ) / 2) ∧
    lw + 1/4 ≤ applySafetyConstraints p lw ∧
    applySafetyConstraints p lw ≤ lw + max (1/2) (lw * (1/10)) + 1/4 := by
  have hdef : applySafetyConstraints p lw
      = (rhe ((lw + max (min (p - lw) (lw * (1/10))) (1/2)) * 2) : ℚ) / 2 := rfl
  set s := max (min (p - lw) (lw * (1/10))) (1/2) with hs
  have hs1 : (1/2 : ℚ) ≤ s := le_max_right _ _
  have hs2 : s ≤ max (1/2) (lw * (1/10)) :=
    max_le (le_trans (min_le_right _ _) (le_max_right _ _)) (le_max_left _ _)
  have hlo := rhe_ge ((lw + s) * 2)
  have hhi := rhe_le ((lw + s) * 2)
  refine ⟨⟨rhe ((lw + s) * 2), hdef⟩, ?_, ?_⟩
  · rw [hdef]; linarith
  · rw [hdef]; linarith

theorem predictCore_some_shape (fit : List (List ℚ) → List ℚ → Option LinModel)
    (h : List Entry) (useRpe : Bool) (m : Metrics) (model : LinModel) (w : ℚ)
    (hc : predictCore fit h useRpe = some (m, model, w)) :
    ∃ p : ℚ, w = applySafetyConstraints p ((sortAsc h).getLastD default).weight := by
  unfold predictCore at hc
  split at hc
  · exact absurd hc (by simp)
  · split at hc
    · exact absurd hc (by simp)
    · split at hc
      · exact absurd hc (by simp)
      · simp only [Option.some.injEq, Prod.mk.injEq] at hc
        obtain ⟨-, -, hw⟩ := hc
        exact ⟨_, hw.symm⟩

/-- Claim C1 (amended).  Whenever predict_next_weight returns a weight w,
w is an exact multiple of 0.5 and w is obtained from the model prediction
by capping the raw delta at 10 percent of the last logged weight, then
flooring it at 0.5 kg (the floor is applied second, so it wins when
0.1 x last_weight < 0.5), then rounding last_weight plus the increase to
the nearest 0.5; consequently w - last_weight always lies between 0.25
and max(0.5, 0.1 x last_weight) + 0.25, but not necessarily between 0.5
and 0.1 x last_weight as originally claimed. -/
theorem predictNextWeight_guardrails
    (fit : List (List ℚ) → List ℚ → Option LinModel) (st : PredictorState)
    (user exercise : String) (h : List Entry) (useRpe : Bool) (w : ℚ)
    (hw : (predictNextWeight fit st user exercise h useRpe).2 = some w) :
    (∃ k : ℤ, w = (k : ℚ) / 2) ∧
    ((sortAsc h).getLastD default).weight + 1/4 ≤ w ∧
    w ≤ ((sortAsc h).getLastD default).weight
      + max (1/2) (((sortAsc h).getLastD default).weight * (1/10)) + 1/4 ∧
    ∃ p : ℚ, w = applySafetyConstraints p ((sortAsc h).getLastD default).weight := by
  unfold predictNextWeight at hw
  rcases hc : predictCore fit h useRpe with - | ⟨m, model, w'⟩
  · rw [hc] at hw; simp at hw
  · rw [hc] at hw
    simp only [Option.some.injEq] at hw
    subst hw
    obtain ⟨p, hp⟩ := predictCore_some_shape fit h useRpe m model w' hc
    subst hp
    obtain ⟨hk, hlo, hhi⟩ :=
      applySafetyConstraints_spec p ((sortAsc h).getLastD default).weight
    exact ⟨hk, hlo, hhi, p, rfl⟩

/-- Claim C1 counterexample.  With last logged weight 1 kg the returned
weight is 1.5 kg, so the suggested increase 0.5 exceeds the claimed cap
of 0.1 x last_weight = 0.1. -/
theorem predictNextWeight_bound_cex :
    (predictNextWeight (fun _ _ => some fun _ => 0) ⟨[], []⟩ "u" "bench"
      [⟨0, 3, 5, 1, 7⟩, ⟨7, 3, 5, 1, 7⟩, ⟨14, 3, 5, 1, 8⟩] true).2 = some (3/2) ∧
    ((sortAsc [⟨0, 3, 5, 1, 7⟩, ⟨7, 3, 5, 1, 7⟩,
      ⟨14, 3, 5, 1, 8⟩]).getLastD default).weight = 1 ∧
    ¬((3/2 : ℚ) - 1 ≤ (1/10) * 1) := by
  refine ⟨by decide, by decide, by decide⟩

/-- Claim C1 witness: the spec's own example history (100, 102.5, 105 kg
one week apart) with a constant-zero model. -/
theorem predictNextWeight_guardrails_witness :
    (predictNextWeight (fun _ _ => some fun _ => 0) ⟨[], []⟩ "u" "squat"
      [⟨0, 3, 5, 100, 7⟩, ⟨7, 3, 5, 205/2, 7⟩, ⟨14, 3, 5, 105, 8⟩] true).2
      = some (211/2) ∧
    ((sortAsc [⟨0, 3, 5, 100, 7⟩, ⟨7, 3, 5, 205/2, 7⟩,
      ⟨14, 3, 5, 105, 8⟩]).getLastD default).weight + 1/4 ≤ (211/2 : ℚ) :=
  ⟨by decide,
    (predictNextWeight_guardrails (fun _ _ => some fun _ => 0) ⟨[], []⟩ "u" "squat"
      [⟨0, 3, 5, 100, 7⟩, ⟨7, 3, 5, 205/2, 7⟩, ⟨14, 3, 5, 105, 8⟩] true (211/2)
      (by decide)).2.1⟩

/-- Claim C4.  With fewer than 3 history rows predict_next_weight returns
None, and the call is total: every outcome is either None or a weight
(the try/except of the source, modelled by totality plus the Option
returned by the abstracted least-squares solver, lets no failure escape). -/
theorem predictNextWeight_insufficient
    (fit : List (List ℚ) → List ℚ → Option LinModel) (st : PredictorState)
    (user exercise : String) (h : List Entry) (useRpe : Bool) :
    (h.length < 3 → (predictNextWeight fit st user exercise h useRpe).2 = none) ∧
    ((predictNextWeight fit st user exercise h useRpe).2 = none ∨
      ∃ w, (predictNextWeight fit st user exercise h useRpe).2 = some w) := by
  constructor
  · intro hlen
    unfold predictNextWeight predictCore
    rw [if_pos hlen]
  · rcases ho : (predictNextWeight fit st user exercise h useRpe).2 with - | w
    · exact Or.inl rfl
    · exact Or.inr ⟨w, rfl⟩

/-- Claim C4 witness: a 2-row history yields None. -/
theorem predictNextWeight_insufficient_witness :
    [(⟨0, 3, 5, 100, 7⟩ : Entry), ⟨7, 3, 5, 105, 8⟩].length < 3 ∧
    (predictNextWeight (fun _ _ => some fun _ => 0) ⟨[], []⟩ "u" "bench"
      [⟨0, 3, 5, 100, 7⟩, ⟨7, 3, 5, 105, 8⟩] true).2 = none :=
  ⟨by decide,
    (predictNextWeight_insufficient (fun _ _ => some fun _ => 0) ⟨[], []⟩ "u" "bench"
      [⟨0, 3, 5, 100, 7⟩, ⟨7, 3, 5, 105, 8⟩] true).1 (by decide)⟩

/-- Claim C9.  The model cache key is the plain underscore join of user
and exercise, so distinct pairs with equal joined strings (such as
("a_b", "c") and ("a", "b_c")) share one cache slot: a successful fit for
the first pair overwrites the slot, and get_model_accuracy for the second
pair afterwards returns the R-squared of that overwriting fit. -/
theorem modelKey_collision :
    modelKey "a_b" "c" = modelKey "a" "b_c" ∧
    ∀ (fit : List (List ℚ) → List ℚ → Option LinModel) (st : PredictorState)
      (u1 e1 u2 e2 : String) (h : List Entry) (useRpe : Bool) (w : ℚ),
      modelKey u1 e1 = modelKey u2 e2 →
      (predictNextWeight fit st u1 e1 h useRpe).2 = some w →
      ∃ model m,
        (predictNextWeight fit st u1 e1 h useRpe).1.models
          = (modelKey u1 e1, model) :: st.models ∧
        (predictNextWeight fit st u1 e1 h useRpe).1.metrics
          = (modelKey u1 e1, m) :: st.metrics ∧
        getModelAccuracy (predictNextWeight fit st u1 e1 h useRpe).1 u2 e2
          = some m.r2 := by
  refine ⟨rfl, ?_⟩
  intro fit st u1 e1 u2 e2 h useRpe w hkey hw
  unfold predictNextWeight at *
  rcases hc : predictCore fit h useRpe with - | ⟨m, model, w'⟩
  · rw [hc] at hw; simp at hw
  · rw [hc] at hw
    refine ⟨model, m, rfl, rfl, ?_⟩
    unfold getModelAccuracy
    rw [← hkey]
    simp [List.lookup]

/-- Claim C9 witness: a concrete fit stored for ("a_b", "c") is read back
through ("a", "b_c"). -/
theorem modelKey_collision_witness :
    modelKey "a_b" "c" = modelKey "a" "b_c" ∧
    getModelAccuracy (predictNextWeight (fun _ _ => some fun _ => 0) ⟨[], []⟩ "a_b" "c"
      [⟨0, 3, 5, 100, 7⟩, ⟨7, 3, 5, 205/2, 7⟩, ⟨14, 3, 5, 105, 8⟩] true).1 "a" "b_c"
      = some (-5043/2) := by
  obtain ⟨hkey, hmain⟩ := modelKey_collision
  refine ⟨hkey, ?_⟩
  obtain ⟨model, m, -, hmet, hacc⟩ :=
    hmain (fun _ _ => some fun _ => 0) ⟨[], []⟩ "a_b" "c" "a" "b_c"
      [⟨0, 3, 5, 100, 7⟩, ⟨7, 3, 5, 205/2, 7⟩, ⟨14, 3, 5, 105, 8⟩] true (211/2)
      (by decide) (by decide)
  rw [hacc]
  have hm : m = ⟨-5043/2, 205/2, 3⟩ := by
    have := hmet.symm.trans (show (predictNextWeight (fun _ _ => some fun _ => 0)
      ⟨[], []⟩ "a_b" "c" [⟨0, 3, 5, 100, 7⟩, ⟨7, 3, 5, 205/2, 7⟩, ⟨14, 3, 5, 105, 8⟩]
      true).1.metrics = [(modelKey "a_b" "c", ⟨-5043/2, 205/2, 3⟩)] from by decide)
    simp at this
    exact this
  rw [hm]

/-!
AIPredictor.predict_1rm (src/ai_prediction.py lines 401-463).
-/

/-- The RPE-to-percentage chart of predict_1rm: RPE 10 maps to 100 down
to RPE 1 mapping to 73; anything else is an invalid RPE. -/
def rpePercentages (rpe : ℤ) : Option ℚ :=
  if rpe = 10 then some 100
  else if rpe = 9 then some 97
  else if rpe = 8 then some 94
  else if rpe = 7 then some 91
  else if rpe = 6 then some 88
  else if rpe = 5 then some 85
  else if rpe = 4 then some 82
  else if rpe = 3 then some 79
  else if rpe = 2 then some 76
  else if rpe = 1 then some 73
  else none

/-- The rep-count adjustment table of predict_1rm: 0 at 1 rep down to
-27 at 10 reps; keys outside 1..10 are absent. -/
def repAdjustments (reps : ℤ) : Option ℚ :=
  if reps = 1 then some 0
  else if reps = 2 then some (-3)
  else if reps = 3 then some (-6)
  else if reps = 4 then some (-9)
  else if reps = 5 then some (-12)
  else if reps = 6 then some (-15)
  else if reps = 7 then some (-18)
  else if reps = 8 then some (-21)
  else if reps = 9 then some (-24)
  else if reps = 10 then some (-27)
  else none

/-- The success payload of predict_1rm: the returned estimated_1rm
(rounded to one decimal), the confidence label and the
estimated_percentage from calculation_details. -/
structure OneRmResult where
  estimated1rm : ℚ
  confidence : String
  estimatedPercentage : ℚ
deriving DecidableEq

/-- Result of predict_1rm: invalid_rpe or a success record. -/
inductive OneRm where
  | invalidRpe
  | success (r : OneRmResult)
deriving DecidableEq

/-- The confidence heuristic of predict_1rm, comparing the estimate with
the historical maximum weight for the exercise. -/
def oneRmConfidence (history : List Entry) (est1rm : ℚ) : String :=
  match (history.map Entry.weight).max? with
  | none => "medium"
  | some maxW =>
    if est1rm > maxW * (3/2) then "low"
    else if |est1rm - maxW| < maxW * (1/10) then "high"
    else "medium"

/-- AIPredictor.predict_1rm: base percentage from the RPE chart, rep
adjustment looked up at min(reps, 10) with dict-default -30, then
estimated_1rm = weight / (estimated_percentage / 100). -/
def predict1rm (history : List Entry) (reps : ℤ) (weight : ℚ) (rpe : ℤ) : OneRm :=
  match rpePercentages rpe with
  | none => .invalidRpe
  | some basePercentage =>
    let repAdjustment := (repAdjustments (min reps 10)).getD (-30)
    let estimatedPercentage := basePercentage + repAdjustment
    let estimated1rm := weight / (estimatedPercentage / 100)
    .success ⟨roundTo 1 estimated1rm, oneRmConfidence history estimated1rm,
              estimatedPercentage⟩

/-- The rep adjustment actually applied, in closed form: the table value
3 - 3 * min(reps, 10) for reps at least 1 (hence a flat -27 for all reps
above 10), and the dict default -30 only for reps below 1. -/
theorem repAdjustment_closed_form (reps : ℤ) :
    (repAdjustments (min reps 10)).getD (-30)
      = if 1 ≤ reps then ((3 - 3 * min reps 10 : ℤ) : ℚ) else -30 := by
  by_cases h10 : 10 ≤ reps
  · rw [min_eq_right h10]
    have h1 : 1 ≤ reps := by omega
    rw [if_pos h1]
    decide
  · have hmin : min reps 10 = reps := min_eq_left (by omega)
    rw [hmin]
    by_cases h1 : 1 ≤ reps
    · rw [if_pos h1]
      have h9 : reps ≤ 9 := by omega
      interval_cases reps <;> decide
    · rw [if_neg h1]
      have hnone : repAdjustments reps = none := by
        unfold repAdjustments
        rw [if_neg (by omega : ¬ reps = 1), if_neg (by omega : ¬ reps = 2),
          if_neg (by omega : ¬ reps = 3), if_neg (by omega : ¬ reps = 4),
          if_neg (by omega : ¬ reps = 5), if_neg (by omega : ¬ reps = 6),
          if_neg (by omega : ¬ reps = 7), if_neg (by omega : ¬ reps = 8),
          if_neg (by omega : ¬ reps = 9), if_neg (by omega : ¬ reps = 10)]
      rw [hnone]
      rfl

/-- Claim C2 (amended).  For a valid RPE, predict_1rm succeeds with
estimated_percentage = base_percentage + rep_penalty where the penalty is
the table value for reps 1..10, a flat -27 (not -30) for every reps value
strictly greater than 10 because reps is clamped to 10 before the lookup,
and the dict default -30 only for reps below 1; and
estimated_1rm = weight / (estimated_percentage / 100), reported rounded
to one decimal. -/
theorem predict1rm_formula (history : List Entry) (reps : ℤ) (weight : ℚ)
    (rpe : ℤ) (basePercentage : ℚ)
    (hrpe : rpePercentages rpe = some basePercentage) :
    ∃ r : OneRmResult, predict1rm history reps weight rpe = .success r ∧
      r.estimatedPercentage
        = basePercentage + (if 1 ≤ reps then ((3 - 3 * min reps 10 : ℤ) : ℚ) else -30) ∧
      (10 < reps → r.estimatedPercentage = basePercentage - 27) ∧
      r.estimated1rm = roundTo 1 (weight / (r.estimatedPercentage / 100)) ∧
      r.confidence
        = oneRmConfidence history (weight / (r.estimatedPercentage / 100)) := by
  refine ⟨⟨roundTo 1 (weight / ((basePercentage + (repAdjustments (min reps 10)).getD (-30)) / 100)),
    oneRmConfidence history (weight / ((basePercentage + (repAdjustments (min reps 10)).getD (-30)) / 100)),
    basePercentage + (repAdjustments (min reps 10)).getD (-30)⟩, ?_, ?_, ?_, rfl, rfl⟩
  · unfold predict1rm
    rw [hrpe]
  · rw [repAdjustment_closed_form]
  · intro h10
    rw [repAdjustment_closed_form, if_pos (by omega : (1:ℤ) ≤ reps),
      min_eq_right (by omega : (10:ℤ) ≤ reps)]
    push_cast
    ring

/-- Claim C2 counterexample: at reps = 12, weight = 100, RPE = 10 the code
clamps reps to 10 and applies -27, giving estimated_percentage 73 and a
returned 1RM of 137.0, not the 70 percent the claim's flat -30 penalty
for reps above 10 would give. -/
theorem predict1rm_reps_above_ten_cex :
    predict1rm [] 12 100 10 = .success ⟨137, "medium", 73⟩ ∧
    ((73 : ℚ) ≠ 100 + (-30)) := by
  refine ⟨by decide, by decide⟩

/-- Claim C2 witness: the spec's own example, reps = 5, weight = 140,
RPE = 8: estimated_percentage = 94 - 12 = 82 and the 1RM rounds to 170.7. -/
theorem predict1rm_formula_witness :
    rpePercentages 8 = some 94 ∧
    predict1rm [] 5 140 8 = .success ⟨1707/10, "medium", 82⟩ := by
  refine ⟨by decide, ?_⟩
  obtain ⟨r, hr, hpct, -, h1rm, hconf⟩ := predict1rm_formula [] 5 140 8 94 (by decide)
  have hp : r.estimatedPercentage = 82 := by rw [hpct]; decide
  have he : r.estimated1rm = 1707/10 := by rw [h1rm, hp]; decide
  have hc : r.confidence = "medium" := by rw [hconf, hp]; decide
  have hrv : r = ⟨1707/10, "medium", 82⟩ := by
    obtain ⟨e1, c1, p1⟩ := r
    simp only [OneRmResult.mk.injEq]
    exact ⟨he, hc, hp⟩
  rw [hr, hrv]

/-!
FatigueMonitor.calculate_fatigue_score and its four sub-scores
(src/fatigue_monitor.py lines 41-237).
-/

/-- np.linspace(0.5, 1.0, n): the recency weights of the intensity
sub-score. -/
def linspaceHalfOne (n : ℕ) : List ℚ :=
  if n = 1 then [1/2]
  else (List.range n).map fun i => 1/2 + (i : ℚ) / (2 * ((n : ℚ) - 1))

/-- _calculate_volume_fatigue: average of a sets score (50 sets saturate
at 10) and a tonnage score (10000 kg saturates at 10). -/
def volumeFatigue (workouts : List Entry) : ℚ :=
  if workouts = [] then 0
  else
    let totalSets := qsum (workouts.map Entry.sets)
    let totalTonnage := qsum (workouts.map fun e => e.weight * e.sets * e.reps)
    let setsScore := min (totalSets / 50) 1 * 10
    let tonnageScore := min (totalTonnage / 10000) 1 * 10
    (setsScore + tonnageScore) / 2

/-- _calculate_intensity_fatigue: recency-weighted mean RPE over the
chronologically sorted sessions, mapped from the 6..10 band onto 0..10
and clamped above at 10.  (The rpe column is always present in the data
model, so the missing-column guard of the source never fires.) -/
def intensityFatigue (workouts : List Entry) : ℚ :=
  if workouts = [] then 0
  else
    let sorted := sortAsc workouts
    let recencyWeights := linspaceHalfOne sorted.length
    let weightedRpe :=
      qsum (List.zipWith (· * ·) recencyWeights (sorted.map Entry.rpe))
        / qsum recencyWeights
    if weightedRpe ≤ 6 then min 0 10
    else min ((weightedRpe - 6) / 4 * 10) 10

/-- _calculate_frequency_fatigue: banded score of the proportion of
distinct training days in the window.  A zero-length window raises
ZeroDivisionError in the source, caught by its except-branch into 0. -/
def frequencyFatigue (workouts : List Entry) (days : ℕ) : ℚ :=
  if workouts = [] then 0
  else if days = 0 then 0
  else
    let frequencyFraction := (uniqueDates workouts : ℚ) / days
    if frequencyFraction ≤ 3/10 then 1
    else if frequencyFraction ≤ 6/10 then 0
    else if frequencyFraction ≤ 8/10 then 3
    else 7

/-- _calculate_trend_fatigue: compare mean RPE and total sets of the
recent window against the earlier half of the doubled window. -/
def trendFatigue (h : List Entry) (now : ℤ) (days : ℕ) : ℚ :=
  let recent := getRecentWorkouts h now days
  let previous := getRecentWorkouts h now (2 * days)
  if previous.length < days ∨ recent = [] then 0
  else
    let cutoff := ((previous.map Entry.date).max?).getD 0 - days
    let earlier := previous.filter fun e => e.date ≤ cutoff
    if earlier = [] then 0
    else
      let rpeIncrease := qmean (recent.map Entry.rpe) - qmean (earlier.map Entry.rpe)
      let recentVolume := qsum (recent.map Entry.sets)
      let earlierVolume := qsum (earlier.map Entry.sets)
      let tf := (if rpeIncrease > 1/2 then rpeIncrease * 2 else 0)
        + (if earlierVolume ≤ recentVolume ∧ rpeIncrease > 0 then 2 else 0)
      min tf 10

/-- The weighted combination of the four sub-scores with the fixed
weights volume 0.3, intensity 0.4, frequency 0.2, trend 0.1. -/
def totalFatigue (h : List Entry) (now : ℤ) (days : ℕ) : ℚ :=
  volumeFatigue (getRecentWorkouts h now days) * (3/10)
    + intensityFatigue (getRecentWorkouts h now days) * (4/10)
    + frequencyFatigue (getRecentWorkouts h now days) days * (2/10)
    + trendFatigue h now days * (1/10)

/-- FatigueMonitor.calculate_fatigue_score: 0 with no recent workouts,
otherwise the weighted sub-score sum clamped into the 0..10 range. -/
def calculateFatigueScore (h : List Entry) (now : ℤ) (days : ℕ) : ℚ :=
  if getRecentWorkouts h now days = [] then 0
  else max 0 (min 10 (totalFatigue h now days))

theorem volumeFatigue_nil : volumeFatigue [] = 0 := rfl

theorem intensityFatigue_nil : intensityFatigue [] = 0 := rfl

theorem frequencyFatigue_nil (days : ℕ) : frequencyFatigue [] days = 0 := rfl

theorem trendFatigue_recent_nil (h : List Entry) (now : ℤ) (days : ℕ)
    (hrec : getRecentWorkouts h now days = []) : trendFatigue h now days = 0 := by
  unfold trendFatigue
  rw [if_pos (Or.inr hrec)]

/-- Claim C3.  calculate_fatigue_score always lies in the closed interval
0..10; it equals the clamp to 0..10 of the weighted sum of the volume
(0.3), intensity (0.4), frequency (0.2) and trend (0.1) sub-scores; and
it is exactly 0 whenever the user has no workouts in the window. -/
theorem calculateFatigueScore_range (h : List Entry) (now : ℤ) (days : ℕ) :
    0 ≤ calculateFatigueScore h now days ∧
    calculateFatigueScore h now days ≤ 10 ∧
    calculateFatigueScore h now days
      = max 0 (min 10
          (volumeFatigue (getRecentWorkouts h now days) * (3/10)
            + intensityFatigue (getRecentWorkouts h now days) * (4/10)
            + frequencyFatigue (getRecentWorkouts h now days) days * (2/10)
            + trendFatigue h now days * (1/10))) ∧
    (getRecentWorkouts h now days = [] → calculateFatigueScore h now days = 0) := by
  unfold calculateFatigueScore totalFatigue
  by_cases hrec : getRecentWorkouts h now days = []
  · rw [if_pos hrec, hrec, volumeFatigue_nil, intensityFatigue_nil,
      frequencyFatigue_nil, trendFatigue_recent_nil h now days hrec]
    norm_num
  · rw [if_neg hrec]
    refine ⟨le_max_left 0 _, ?_, rfl, fun hc => absurd hc hrec⟩
    exact max_le (by norm_num) (min_le_left 10 _)

/-- Claim C3 witness: the empty history gives score 0 for the default
7-day window. -/
theorem calculateFatigueScore_range_witness :
    getRecentWorkouts [] 0 7 = [] ∧ calculateFatigueScore [] 0 7 = 0 :=
  ⟨by decide, (calculateFatigueScore_range [] 0 7).2.2.2 (by decide)⟩

/-!
AIPredictor.analyze_strength_trends (src/ai_prediction.py lines 167-248).
-/

/-- WorkoutTracker.get_exercise_history: the rows for one (user,
exercise) pair sorted ascending by date.  The embedding takes the
already-filtered rows as input. -/
def getExerciseHistory (h : List Entry) : List Entry := sortAsc h

/-- The success payload of analyze_strength_trends.  weight_change,
percentage_change, weekly_progression and avg_rpe carry the rounded
values the source puts in the returned dict; first_weight and
last_weight are unrounded. -/
structure TrendResult where
  trend : String
  weightChange : ℚ
  percentageChange : ℚ
  weeklyProgression : ℚ
  totalSessions : ℕ
  daysAnalyzed : ℤ
  firstWeight : ℚ
  lastWeight : ℚ
  rpeTrend : String
  avgRpe : ℚ
deriving DecidableEq

/-- Result of analyze_strength_trends. -/
inductive TrendStatus where
  | noData
  | insufficientData
  | success (t : TrendResult)
deriving DecidableEq

/-- Lines 207-213: the trend classification of a percentage change. -/
def trendOf (pc : ℚ) : String :=
  if |pc| < 2 then "stable"
  else if pc > 0 then "increasing"
  else "decreasing"

/-- The unrounded percentage change recomputed from the unrounded
first and last weights of a trend record (0 when the first weight is
not positive). -/
def pcOfResult (t : TrendResult) : ℚ :=
  if t.firstWeight > 0 then (t.lastWeight - t.firstWeight) / t.firstWeight * 100
  else 0

/-- Lines 220-230: the RPE trend from comparing the mean RPE of the
first and last half (by count) of the window. -/
def rpeTrendOf (recent : List Entry) : String :=
  if 3 ≤ recent.length then
    let firstHalfRpe := qmean ((recent.take (recent.length / 2)).map Entry.rpe)
    let secondHalfRpe :=
      qmean ((recent.drop (recent.length - recent.length / 2)).map Entry.rpe)
    let rpeChange := secondHalfRpe - firstHalfRpe
    if rpeChange > 1/2 then "increasing"
    else if rpeChange < -(1/2) then "decreasing"
    else "stable"
  else "stable"

/-- The success record built from the sorted in-window rows. -/
def mkTrendResult (recent : List Entry) : TrendResult :=
  let firstWeight := (recent.headD default).weight
  let lastWeight := (recent.getLastD default).weight
  let weightChange := lastWeight - firstWeight
  let percentageChange :=
    if firstWeight > 0 then weightChange / firstWeight * 100 else 0
  let daysSpan :=
    ((recent.map Entry.date).max?).getD 0 - ((recent.map Entry.date).min?).getD 0
  let weeksSpan := max ((daysSpan : ℚ) / 7) 1
  let weeklyProgression := weightChange / weeksSpan
  ⟨trendOf percentageChange, roundTo 1 weightChange, roundTo 1 percentageChange,
    roundTo 2 weeklyProgression, recent.length, daysSpan, firstWeight, lastWeight,
    rpeTrendOf recent, roundTo 1 (qmean (recent.map Entry.rpe))⟩

/-- AIPredictor.analyze_strength_trends: no_data on an empty history,
insufficient_data with fewer than 2 rows in the window, else the trend
record over the rows dated within the window. -/
def analyzeStrengthTrends (h : List Entry) (now : ℤ) (days : ℕ) : TrendStatus :=
  if getExerciseHistory h = [] then .noData
  else if ((getExerciseHistory h).filter fun e => now - (days : ℤ) ≤ e.date).length < 2 then
    .insufficientData
  else .success (mkTrendResult
    (sortAsc ((getExerciseHistory h).filter fun e => now - (days : ℤ) ≤ e.date)))

theorem trendOf_spec (pc : ℚ) :
    (trendOf pc = "stable" ∨ trendOf pc = "increasing" ∨ trendOf pc = "decreasing") ∧
    (trendOf pc = "stable" ↔ |pc| < 2) ∧
    (¬ |pc| < 2 → (trendOf pc = "increasing" ↔ pc > 0)) ∧
    (¬ |pc| < 2 → ¬ pc > 0 → trendOf pc = "decreasing") := by
  unfold trendOf
  split_ifs with h1 h2
  · exact ⟨Or.inl rfl, ⟨fun _ => h1, fun _ => rfl⟩,
      fun hc => absurd h1 hc, fun hc => absurd h1 hc⟩
  · refine ⟨Or.inr (Or.inl rfl), ⟨fun he => absurd he.symm (by decide), fun hc => absurd hc h1⟩,
      fun _ => ⟨fun _ => h2, fun _ => rfl⟩, fun _ hc => absurd h2 hc⟩
  · refine ⟨Or.inr (Or.inr rfl), ⟨fun he => absurd he.symm (by decide), fun hc => absurd hc h1⟩,
      fun _ => ⟨fun he => absurd he.symm (by decide), fun hc => absurd hc h2⟩,
      fun _ _ => rfl⟩

/-- Claim C5.  Every successful TrendSummary classifies its trend as a
total function of the percentage change (recomputed unrounded from the
record's first and last weights): the label is exactly one of stable,
increasing, decreasing; it is stable iff the absolute percentage change
is below 2; otherwise increasing iff the change is positive, decreasing
in the remaining case. -/
theorem analyzeStrengthTrends_classification (h : List Entry) (now : ℤ)
    (days : ℕ) (t : TrendResult)
    (hs : analyzeStrengthTrends h now days = .success t) :
    (t.trend = "stable" ∨ t.trend = "increasing" ∨ t.trend = "decreasing") ∧
    (t.trend = "stable" ↔ |pcOfResult t| < 2) ∧
    (¬ |pcOfResult t| < 2 → (t.trend = "increasing" ↔ pcOfResult t > 0)) ∧
    (¬ |pcOfResult t| < 2 → ¬ pcOfResult t > 0 → t.trend = "decreasing") := by
  unfold analyzeStrengthTrends at hs
  split at hs
  · exact absurd hs (by simp)
  · split at hs
    · exact absurd hs (by simp)
    · simp only [TrendStatus.success.injEq] at hs
      subst hs
      exact trendOf_spec _

/-- Claim C5 witness: two sessions at 100 kg and 105 kg give an
increasing trend with a 5 percent change. -/
theorem analyzeStrengthTrends_classification_witness :
    analyzeStrengthTrends [⟨0, 3, 5, 100, 7⟩, ⟨5, 3, 5, 105, 8⟩] 10 90
      = .success (mkTrendResult (sortAsc [⟨0, 3, 5, 100, 7⟩, ⟨5, 3, 5, 105, 8⟩])) ∧
    (mkTrendResult (sortAsc [⟨0, 3, 5, 100, 7⟩, ⟨5, 3, 5, 105, 8⟩])).trend
      = "increasing" :=
  ⟨by decide,
    ((analyzeStrengthTrends_classification [⟨0, 3, 5, 100, 7⟩, ⟨5, 3, 5, 105, 8⟩]
      10 90 (mkTrendResult (sortAsc [⟨0, 3, 5, 100, 7⟩, ⟨5, 3, 5, 105, 8⟩]))
      (by decide)).2.2.1 (by decide)).mpr (by decide)⟩

/-!
AIPredictor.predict_performance_plateau
(src/ai_prediction.py lines 250-314).
-/

/-- The success payload of predict_performance_plateau. -/
structure PlateauResult where
  plateauRisk : String
  plateauScore : ℕ
  indicators : List String
  recommendation : String
  trendData : TrendResult
deriving DecidableEq

/-- Result of predict_performance_plateau. -/
inductive PlateauStatus where
  | insufficientData
  | success (p : PlateauResult)
deriving DecidableEq

/-- Lines 271-290: the four additive plateau indicators.  The avg_rpe
condition mirrors the Python truthiness guard (avg_rpe is falsy at 0). -/
def plateauScoreOf (t : TrendResult) : ℕ :=
  (if |t.weeklyProgression| < 1/2 then 2 else 0)
    + (if t.rpeTrend = "increasing" ∧ t.trend = "stable" then 3 else 0)
    + (if |t.percentageChange| < 3 ∧ 8 < t.totalSessions then 2 else 0)
    + (if t.avgRpe ≠ 0 ∧ t.avgRpe > 17/2 then 2 else 0)

/-- The indicator strings accumulated alongside the score. -/
def plateauIndicatorsOf (t : TrendResult) : List String :=
  (if |t.weeklyProgression| < 1/2 then ["Minimal weight progression"] else [])
    ++ (if t.rpeTrend = "increasing" ∧ t.trend = "stable" then
          ["RPE increasing without weight progression"] else [])
    ++ (if |t.percentageChange| < 3 ∧ 8 < t.totalSessions then
          ["Low overall progression rate"] else [])
    ++ (if t.avgRpe ≠ 0 ∧ t.avgRpe > 17/2 then ["Consistently high RPE"] else [])

/-- The success record: risk banding at scores 5 and 3 with the fixed
recommendations, carrying the trend record. -/
def mkPlateauResult (t : TrendResult) : PlateauResult :=
  ⟨if 5 ≤ plateauScoreOf t then "high"
    else if 3 ≤ plateauScoreOf t then "moderate"
    else "low",
   plateauScoreOf t,
   plateauIndicatorsOf t,
   if 5 ≤ plateauScoreOf t then "Consider deload or program change"
    else if 3 ≤ plateauScoreOf t then "Monitor closely, consider technique work"
    else "Continue current progression",
   t⟩

/-- AIPredictor.predict_performance_plateau: run the trend analysis over
a fixed 60-day window and score the result. -/
def predictPerformancePlateau (h : List Entry) (now : ℤ) : PlateauStatus :=
  match analyzeStrengthTrends h now 60 with
  | .success t => .success (mkPlateauResult t)
  | _ => .insufficientData

/-- Claim C7.  Every successful plateau assessment is produced from the
60-day trend analysis; its score is the sum of the four independent
indicator contributions (2 for weekly progression below 0.5 in absolute
value, 3 for RPE trend increasing with weight trend stable, 2 for
absolute percentage change below 3 with more than 8 sessions, 2 for
average RPE above 8.5); and the risk is high at score 5 or more,
moderate at 3 or more, low otherwise. -/
theorem predictPerformancePlateau_scoring (h : List Entry) (now : ℤ)
    (p : PlateauResult)
    (hs : predictPerformancePlateau h now = .success p) :
    analyzeStrengthTrends h now 60 = .success p.trendData ∧
    p.plateauScore
      = (if |p.trendData.weeklyProgression| < 1/2 then 2 else 0)
        + (if p.trendData.rpeTrend = "increasing" ∧ p.trendData.trend = "stable"
            then 3 else 0)
        + (if |p.trendData.percentageChange| < 3 ∧ 8 < p.trendData.totalSessions
            then 2 else 0)
        + (if p.trendData.avgRpe > 17/2 then 2 else 0) ∧
    p.plateauRisk
      = (if 5 ≤ p.plateauScore then "high"
          else if 3 ≤ p.plateauScore then "moderate"
          else "low") := by
  unfold predictPerformancePlateau at hs
  split at hs
  · rename_i t ht
    simp only [PlateauStatus.success.injEq] at hs
    subst hs
    refine ⟨ht, ?_, rfl⟩
    show plateauScoreOf t = _
    unfold plateauScoreOf
    have hiff : (t.avgRpe ≠ 0 ∧ t.avgRpe > 17/2) ↔ t.avgRpe > 17/2 :=
      ⟨fun hx => hx.2,
        fun hx => ⟨ne_of_gt (lt_trans (by norm_num : (0:ℚ) < 17/2) hx), hx⟩⟩
    rw [if_congr hiff rfl rfl]
    rfl
  · exact absurd hs (by simp)

/-- Claim C7 witness: two sessions 5 days apart score 0 and map to low
risk. -/
theorem predictPerformancePlateau_scoring_witness :
    predictPerformancePlateau [⟨0, 3, 5, 100, 7⟩, ⟨5, 3, 5, 105, 8⟩] 10
      = .success (mkPlateauResult
          (mkTrendResult (sortAsc [⟨0, 3, 5, 100, 7⟩, ⟨5, 3, 5, 105, 8⟩]))) ∧
    (mkPlateauResult
        (mkTrendResult (sortAsc [⟨0, 3, 5, 100, 7⟩, ⟨5, 3, 5, 105, 8⟩]))).plateauRisk
      = (if 5 ≤ (mkPlateauResult
            (mkTrendResult (sortAsc [⟨0, 3, 5, 100, 7⟩, ⟨5, 3, 5, 105, 8⟩]))).plateauScore
          then "high"
          else if 3 ≤ (mkPlateauResult
            (mkTrendResult (sortAsc [⟨0, 3, 5, 100, 7⟩, ⟨5, 3, 5, 105, 8⟩]))).plateauScore
          then "moderate"
          else "low") :=
  ⟨by decide,
    (predictPerformancePlateau_scoring [⟨0, 3, 5, 100, 7⟩, ⟨5, 3, 5, 105, 8⟩] 10
      (mkPlateauResult (mkTrendResult (sortAsc [⟨0, 3, 5, 100, 7⟩, ⟨5, 3, 5, 105, 8⟩])))
      (by decide)).2.2⟩

/-!
AIPredictor.generate_progression_plan
(src/ai_prediction.py lines 465-557).
-/

/-- _get_progression_notes: the fixed narrative note per week and target
RPE. -/
def progressionNotes (week : ℕ) (rpe : ℚ) : String :=
  if week = 1 then "Foundation week - focus on form"
  else if week = 2 then "Build week - maintain good technique"
  else if week = 3 then "Intensity week - push closer to limits"
  else if rpe ≥ 9 then "Test week - consider deload after this"
  else "Progressive overload week"

/-- One weekly entry of the progression plan. -/
structure WeekPlan where
  week : ℕ
  targetWeight : ℚ
  targetRpe : ℚ
  notes : String
deriving DecidableEq

/-- The success payload of generate_progression_plan. -/
structure ProgressionPlan where
  currentWeight : ℚ
  plan : List WeekPlan
  weeklyIncrease : ℚ
deriving DecidableEq

/-- Result of generate_progression_plan. -/
inductive PlanStatus where
  | noData
  | success (p : ProgressionPlan)
deriving DecidableEq

/-- trend_analysis.get('weekly_progression', 0): the rounded weekly
progression of a successful trend analysis, 0 otherwise. -/
def weeklyProgressionOf (ta : TrendStatus) : ℚ :=
  match ta with
  | .success t => t.weeklyProgression
  | _ => 0

/-- Lines 505-522: one loop iteration.  Week weight is the base weight
plus week times the weekly increase, rounded to the nearest 0.5 kg; the
RPE target is capped at 8 for weeks 1-2 and at base + 1 capped at 9
afterwards. -/
def weekEntry (currentWeight weeklyIncrease currentRpe : ℚ) (week : ℕ) : WeekPlan :=
  ⟨week,
   roundToHalf (currentWeight + weeklyIncrease * (week : ℚ)),
   if week ≤ 2 then min currentRpe 8
    else if week ≤ 3 then min (currentRpe + 1) 9
    else min (currentRpe + 1) 9,
   progressionNotes week
     (if week ≤ 2 then min currentRpe 8
      else if week ≤ 3 then min (currentRpe + 1) 9
      else min (currentRpe + 1) 9)⟩

/-- The success record: the weekly increase is 2.5 at weekly progression
above 2, 1.5 above 1 and 1.0 otherwise, and the plan lists the entries
for weeks 1..weeks. -/
def mkProgressionPlan (latest : Entry) (wp : ℚ) (weeks : ℕ) : ProgressionPlan :=
  ⟨latest.weight,
   (List.range weeks).map fun i =>
     weekEntry latest.weight (if wp > 2 then 5/2 else if wp > 1 then 3/2 else 1)
       latest.rpe (i + 1),
   if wp > 2 then 5/2 else if wp > 1 then 3/2 else 1⟩

/-- AIPredictor.generate_progression_plan: no_data on an empty history,
else the plan built from the latest logged session and the default-window
trend analysis. -/
def generateProgressionPlan (h : List Entry) (now : ℤ) (weeks : ℕ) : PlanStatus :=
  if getExerciseHistory h = [] then .noData
  else .success (mkProgressionPlan
    ((sortAsc (getExerciseHistory h)).getLastD default)
    (weeklyProgressionOf (analyzeStrengthTrends h now 90)) weeks)

/-- Claim C6.  A successful 4-week plan has exactly 4 weekly entries;
the week-w target weight is the base weight plus w times the weekly
increase rounded to the nearest 0.5; and whenever the weekly increase is
nonnegative (which the generator always guarantees, choosing 1, 1.5 or
2.5) the target weights are non-decreasing across the weeks. -/
theorem generateProgressionPlan_monotone (h : List Entry) (now : ℤ)
    (p : ProgressionPlan)
    (hs : generateProgressionPlan h now 4 = .success p) :
    p.plan.length = 4 ∧
    (∀ i, (hi : i < p.plan.length) →
      (p.plan[i]).targetWeight
        = roundToHalf (p.currentWeight + p.weeklyIncrease * ((i + 1 : ℕ) : ℚ))) ∧
    (0 ≤ p.weeklyIncrease →
      ∀ i j, (hi : i < p.plan.length) → (hj : j < p.plan.length) → i ≤ j →
        (p.plan[i]).targetWeight ≤ (p.plan[j]).targetWeight) := by
  unfold generateProgressionPlan at hs
  split at hs
  · exact absurd hs (by simp)
  · simp only [PlanStatus.success.injEq] at hs
    subst hs
    have hformula : ∀ i, (hi : i < (mkProgressionPlan
        ((sortAsc (getExerciseHistory h)).getLastD default)
        (weeklyProgressionOf (analyzeStrengthTrends h now 90)) 4).plan.length) →
        ((mkProgressionPlan ((sortAsc (getExerciseHistory h)).getLastD default)
          (weeklyProgressionOf (analyzeStrengthTrends h now 90)) 4).plan[i]).targetWeight
          = roundToHalf ((mkProgressionPlan
              ((sortAsc (getExerciseHistory h)).getLastD default)
              (weeklyProgressionOf (analyzeStrengthTrends h now 90)) 4).currentWeight
            + (mkProgressionPlan ((sortAsc (getExerciseHistory h)).getLastD default)
              (weeklyProgressionOf (analyzeStrengthTrends h now 90)) 4).weeklyIncrease
              * ((i + 1 : ℕ) : ℚ)) := by
      intro i hi
      simp only [mkProgressionPlan, List.getElem_map, List.getElem_range]
      rfl
    refine ⟨rfl, hformula, ?_⟩
    intro hinc i j hi hj hij
    rw [hformula i hi, hformula j hj]
    apply roundToHalf_mono
    have hcast : ((i + 1 : ℕ) : ℚ) ≤ ((j + 1 : ℕ) : ℚ) := by
      exact_mod_cast Nat.succ_le_succ hij
    have hmul := mul_le_mul_of_nonneg_left hcast hinc
    linarith

/-- Claim C6 witness: a single 100 kg session yields the plan 101, 102,
103, 104 over four weeks. -/
theorem generateProgressionPlan_monotone_witness :
    generateProgressionPlan [⟨0, 3, 5, 100, 7⟩] 0 4
      = .success (mkProgressionPlan ⟨0, 3, 5, 100, 7⟩ 0 4) ∧
    (mkProgressionPlan ⟨0, 3, 5, 100, 7⟩ 0 4).plan.length = 4 :=
  ⟨by decide,
    (generateProgressionPlan_monotone [⟨0, 3, 5, 100, 7⟩] 0
      (mkProgressionPlan ⟨0, 3, 5, 100, 7⟩ 0 4) (by decide)).1⟩

/-!
FatigueMonitor.calculate_training_readiness
(src/fatigue_monitor.py lines 469-537) and
FatigueMonitor.recommend_deload (lines 285-372).
-/

/-- The record returned by calculate_training_readiness.  The last two
fields are present only on the success path (the insufficient-data dict
of the source has only the first three keys). -/
structure ReadinessResult where
  readinessScore : ℚ
  status : String
  message : String
  fatigueComponent : Option ℚ
  baseReadiness : Option ℚ
deriving DecidableEq

/-- The sample variance (denominator n - 1, pandas default ddof=1) of
the RPE column; 0 for fewer than two rows (where pandas returns NaN). -/
def rpeSampleVariance (workouts : List Entry) : ℚ :=
  let xs := workouts.map Entry.rpe
  qsum (xs.map fun x => (x - qmean xs) * (x - qmean xs)) / ((xs.length : ℚ) - 1)

/-- Lines 494-503: the consistency bonus from the standard deviation of
recent RPE.  Since the standard deviation is nonnegative, std < c is
equivalent to variance < c * c, which keeps the embedding inside the
rationals; with fewer than two rows the pandas std is NaN, both NaN
comparisons are false, and the bonus is 0. -/
def consistencyBonus (workouts : List Entry) : ℚ :=
  if workouts.length ≤ 1 then 0
  else if rpeSampleVariance workouts < (1/2) * (1/2) then 1
  else if rpeSampleVariance workouts < 1 * 1 then 1/2
  else 0

/-- The success record of calculate_training_readiness: readiness is
min(10, 10 - fatigue + bonus); the status bands are evaluated on the
unrounded readiness and the reported score is rounded to one decimal. -/
def mkReadiness (fatigue : ℚ) (recent : List Entry) : ReadinessResult :=
  ⟨roundTo 1 (min 10 (10 - fatigue + consistencyBonus recent)),
   if min 10 (10 - fatigue + consistencyBonus recent) ≥ 8 then "Excellent"
    else if min 10 (10 - fatigue + consistencyBonus recent) ≥ 6 then "Good"
    else if min 10 (10 - fatigue + consistencyBonus recent) ≥ 4 then "Fair"
    else "Poor",
   if min 10 (10 - fatigue + consistencyBonus recent) ≥ 8 then
     "Ready for high-intensity training"
    else if min 10 (10 - fatigue + consistencyBonus recent) ≥ 6 then
     "Ready for normal training load"
    else if min 10 (10 - fatigue + consistencyBonus recent) ≥ 4 then
     "Consider moderate training intensity"
    else "Focus on recovery, light training only",
   some fatigue,
   some (roundTo 1 (10 - fatigue))⟩

/-- FatigueMonitor.calculate_training_readiness: the default record with
readiness 5 and status Unknown when there are no workouts in the last 7
days, else the readiness computed from the 7-day fatigue score and the
RPE consistency bonus. -/
def calculateTrainingReadiness (h : List Entry) (now : ℤ) : ReadinessResult :=
  if getRecentWorkouts h now 7 = [] then
    ⟨5, "Unknown", "Insufficient recent data", none, none⟩
  else mkReadiness (calculateFatigueScore h now 7) (getRecentWorkouts h now 7)

/-- Claim C8 (amended).  With no workouts in the last 7 days the call
returns readiness 5 with status Unknown; otherwise the returned
readiness_score equals min(10, (10 - fatigue7) + bonus) rounded to one
decimal (half to even), where the bonus is 1 when the standard deviation
of recent RPE is below 0.5, 0.5 when below 1 and 0 otherwise (including
the single-row case, where the sample deviation is undefined), and the
status bands Excellent / Good / Fair / Poor at 8 / 6 / 4 are evaluated
on the unrounded readiness value. -/
theorem calculateTrainingReadiness_spec (h : List Entry) (now : ℤ) :
    (getRecentWorkouts h now 7 = [] →
      calculateTrainingReadiness h now
        = ⟨5, "Unknown", "Insufficient recent data", none, none⟩) ∧
    (getRecentWorkouts h now 7 ≠ [] →
      (calculateTrainingReadiness h now).readinessScore
          = roundTo 1 (min 10 ((10 - calculateFatigueScore h now 7)
              + consistencyBonus (getRecentWorkouts h now 7))) ∧
      (calculateTrainingReadiness h now).status
          = (if min 10 ((10 - calculateFatigueScore h now 7)
                + consistencyBonus (getRecentWorkouts h now 7)) ≥ 8 then "Excellent"
             else if min 10 ((10 - calculateFatigueScore h now 7)
                + consistencyBonus (getRecentWorkouts h now 7)) ≥ 6 then "Good"
             else if min 10 ((10 - calculateFatigueScore h now 7)
                + consistencyBonus (getRecentWorkouts h now 7)) ≥ 4 then "Fair"
             else "Poor")) := by
  unfold calculateTrainingReadiness
  by_cases hrec : getRecentWorkouts h now 7 = []
  · rw [if_pos hrec]
    exact ⟨fun _ => rfl, fun hc => absurd hrec hc⟩
  · rw [if_neg hrec]
    exact ⟨fun hc => absurd hc hrec, fun _ => ⟨rfl, rfl⟩⟩

/-- Claim C8 counterexample.  For a single light session the 7-day
fatigue score is 24603/20000 = 1.23015, so min(10, base + bonus) is
8.76985 while the returned readiness_score is the rounded 8.8: the
returned score does not equal min(10, (10 - fatigue) + bonus) exactly. -/
theorem calculateTrainingReadiness_rounding_cex :
    calculateFatigueScore [⟨0, 1, 1, 1, 7⟩] 0 7 = 24603/20000 ∧
    consistencyBonus (getRecentWorkouts [⟨0, 1, 1, 1, 7⟩] 0 7) = 0 ∧
    (calculateTrainingReadiness [⟨0, 1, 1, 1, 7⟩] 0).readinessScore = 44/5 ∧
    ¬((44:ℚ)/5 = min 10 ((10 - 24603/20000) + 0)) := by
  exact ⟨by decide, by decide, by decide, by decide⟩

/-- Claim C8 witness: the single-session history exercises the success
branch of the amended statement. -/
theorem calculateTrainingReadiness_spec_witness :
    getRecentWorkouts [⟨0, 1, 1, 1, 7⟩] 0 7 ≠ [] ∧
    (calculateTrainingReadiness [⟨0, 1, 1, 1, 7⟩] 0).readinessScore
      = roundTo 1 (min 10 ((10 - calculateFatigueScore [⟨0, 1, 1, 1, 7⟩] 0 7)
          + consistencyBonus (getRecentWorkouts [⟨0, 1, 1, 1, 7⟩] 0 7))) :=
  ⟨by decide,
    ((calculateTrainingReadiness_spec [⟨0, 1, 1, 1, 7⟩] 0).2 (by decide)).1⟩

/-- The record returned by recommend_deload.  deload_score and the
indicator list are present only on the full-analysis path; the
insufficient-data dict of the source has only the first three keys. -/
structure DeloadRecommendation where
  shouldDeload : Bool
  reason : String
  suggestion : String
  deloadScore : Option ℕ
  indicators : Option (List String)
deriving DecidableEq

/-- Lines 312-343: the five additive deload indicators. -/
def deloadScoreOf (fatigue : ℚ) (recent : List Entry) (totalWorkouts : ℕ) : ℕ :=
  (if fatigue > 7 then 3 else 0)
    + (if qmean (recent.map Entry.rpe) > 17/2 then 2 else 0)
    + (if 3 ≤ (recent.filter fun e => e.rpe ≥ 9).length then 2 else 0)
    + (if 10 < uniqueDates recent then 1 else 0)
    + (if 20 < totalWorkouts ∧ 4 ≤ totalWorkouts / 3 then 1 else 0)

/-- The indicator strings accumulated alongside the deload score. -/
def deloadIndicatorsOf (fatigue : ℚ) (recent : List Entry)
    (totalWorkouts : ℕ) : List String :=
  (if fatigue > 7 then ["High fatigue levels"] else [])
    ++ (if qmean (recent.map Entry.rpe) > 17/2 then ["Consistently high RPE"] else [])
    ++ (if 3 ≤ (recent.filter fun e => e.rpe ≥ 9).length then
          ["Multiple very high intensity sessions"] else [])
    ++ (if 10 < uniqueDates recent then ["High training frequency"] else [])
    ++ (if 20 < totalWorkouts ∧ 4 ≤ totalWorkouts / 3 then
          ["Extended training period"] else [])

/-- The full-analysis record: deload from score 2 upwards with the
suggestion banded at scores 4 and 2, and the reason the comma-joined
indicator list. -/
def mkDeload (fatigue : ℚ) (recent : List Entry)
    (totalWorkouts : ℕ) : DeloadRecommendation :=
  ⟨if 4 ≤ deloadScoreOf fatigue recent totalWorkouts then true
    else if 2 ≤ deloadScoreOf fatigue recent totalWorkouts then true
    else false,
   if deloadIndicatorsOf fatigue recent totalWorkouts = [] then
     "Low deload indicators"
    else String.intercalate ", " (deloadIndicatorsOf fatigue recent totalWorkouts),
   if 4 ≤ deloadScoreOf fatigue recent totalWorkouts then
     "Take a deload week: reduce weight by 20-30% and focus on form"
    else if 2 ≤ deloadScoreOf fatigue recent totalWorkouts then
     "Consider a light deload: reduce volume by 30-40%"
    else "Continue current training but monitor fatigue closely",
   some (deloadScoreOf fatigue recent totalWorkouts),
   some (deloadIndicatorsOf fatigue recent totalWorkouts)⟩

/-- FatigueMonitor.recommend_deload: the fixed insufficient-data record
when there are no workouts in the last 14 days, else the full analysis
over the 7-day fatigue score, the 14-day window and the lifetime workout
count. -/
def recommendDeload (h : List Entry) (now : ℤ) : DeloadRecommendation :=
  if getRecentWorkouts h now 14 = [] then
    ⟨false, "Insufficient data", "Continue training and monitor fatigue", none, none⟩
  else mkDeload (calculateFatigueScore h now 7) (getRecentWorkouts h now 14)
    (getUserWorkouts h).length

/-- Claim C10.  With no workouts in the last 14 days recommend_deload
returns exactly should_deload false, reason Insufficient data and
suggestion Continue training and monitor fatigue, with the deload_score
and indicators fields absent; on every other path both fields are
present. -/
theorem recommendDeload_no_recent (h : List Entry) (now : ℤ) :
    (getRecentWorkouts h now 14 = [] →
      recommendDeload h now = ⟨false, "Insufficient data",
        "Continue training and monitor fatigue", none, none⟩) ∧
    (getRecentWorkouts h now 14 ≠ [] →
      (recommendDeload h now).deloadScore.isSome = true ∧
      (recommendDeload h now).indicators.isSome = true) := by
  unfold recommendDeload
  by_cases hrec : getRecentWorkouts h now 14 = []
  · rw [if_pos hrec]
    exact ⟨fun _ => rfl, fun hc => absurd hrec hc⟩
  · rw [if_neg hrec]
    exact ⟨fun hc => absurd hc hrec, fun _ => ⟨rfl, rfl⟩⟩

/-- Claim C10 witness: the empty history takes the insufficient-data
branch; a one-session history carries both optional fields. -/
theorem recommendDeload_no_recent_witness :
    recommendDeload [] 0 = ⟨false, "Insufficient data",
      "Continue training and monitor fatigue", none, none⟩ ∧
    (recommendDeload [⟨0, 1, 1, 1, 7⟩] 0).deloadScore.isSome = true :=
  ⟨(recommendDeload_no_recent [] 0).1 (by decide),
    ((recommendDeload_no_recent [⟨0, 1, 1, 1, 7⟩] 0).2 (by decide)).1⟩

end StrengthTracker
